import Mathlib

/-!
Verification development for the GLTF 2.0 codec in `trimesh/exchange/gltf.py`.

The Python source is shallowly embedded: byte strings become `List Nat`
(each entry one byte value), numpy little-endian uint32 serialization
becomes explicit base-256 digit lists, floating-point arrays are modelled
exactly over `ℚ`, and the mutable `tree` / `buffer_items` pair threaded
through the export helpers becomes an explicit state record.  Serialization
of `ℚ` values to 4-byte float32 blobs (numpy `astype("<f4").tobytes()`) and
`json.dumps` are external to the numeric logic and are passed in as
function parameters, so every theorem quantifies over them.
-/

namespace Gltf

/-- Byte strings are lists of byte values. -/
abbrev Bytes := List Nat

/-- Magic constant `_magic["gltf"]` (= 0x46546C67, "glTF"). -/
def gltfMagic : Nat := 1179937895

/-- Magic constant `_magic["json"]` (= 0x4E4F534A, "JSON"). -/
def jsonMagic : Nat := 1313821514

/-- Magic constant `_magic["bin"]` (= 0x004E4942, "BIN\x00"),
written `0x004E4942` in `export_glb`. -/
def binMagic : Nat := 5130562

/-- Little-endian 4-byte encoding of a natural number, as produced by
`np.array([n], dtype="<u4").tobytes()` (values wrap modulo 2^32). -/
def le32 (n : Nat) : Bytes :=
  [n % 256, n / 256 % 256, n / 65536 % 256, n / 16777216 % 256]

/-- Little-endian uint32 decode of the first four bytes of a byte string,
as performed by `np.frombuffer(data, dtype="<u4")` on the leading word. -/
def dec4 (bs : Bytes) : Nat :=
  bs.getD 0 0 + 256 * bs.getD 1 0 + 65536 * bs.getD 2 0 + 16777216 * bs.getD 3 0

/-- The uint32 decoded at byte offset `i` of a byte string: `data[i:i+4]`
interpreted little-endian. -/
def u32At (bs : Bytes) (i : Nat) : Nat := dec4 (bs.drop i)

/-- `_byte_pad`: append ASCII-space bytes (0x20) so the length becomes a
multiple of `bound`; return the input unchanged when already aligned.
(The defensive re-check that raises `ValueError` in the source can never
fire for the `bound = 4` used throughout and is not modelled.) -/
def byte_pad (data : Bytes) (bound : Nat := 4) : Bytes :=
  if data.length % bound ≠ 0 then
    data ++ List.replicate (bound - data.length % bound) 32
  else
    data

@[simp] theorem le32_length (n : Nat) : (le32 n).length = 4 := rfl

theorem dec4_le32_append (n : Nat) (rest : Bytes) :
    dec4 (le32 n ++ rest) = n % 4294967296 := by
  simp [dec4, le32, List.getD]
  omega

theorem byte_pad_of_aligned {data : Bytes} (h : data.length % 4 = 0) :
    byte_pad data = data := by
  simp [byte_pad, h]

/-! ### GLB container assembly (`export_glb`, lines 145–195)

`glbLayout content bufferData` is the byte-level tail of `export_glb`:
given the raw JSON content bytes (the result of `json.dumps(tree).encode`)
and the concatenated buffer blob, pad the content, build the 20-byte file
header and the 8-byte binary-chunk header, and join everything. -/

def glbLayout (contentRaw : Bytes) (bufferData : Bytes) : Bytes :=
  -- content += (4 - ((len(content) + 20) % 4)) * " "
  let content := contentRaw ++ List.replicate (4 - (contentRaw.length + 20) % 4) 32
  -- header: magic, version 2, total length, content length, JSON magic
  let header := byte_pad
    (le32 gltfMagic ++ le32 2 ++
      le32 (content.length + bufferData.length + 28) ++
      le32 content.length ++ le32 jsonMagic)
  -- binary chunk header: buffer length, 0x004E4942
  let binHeader := byte_pad (le32 bufferData.length ++ le32 binMagic)
  header ++ content ++ binHeader ++ bufferData

/-- The bufferView list built by the `export_glb` loop (lines 146–154):
each blob gets `{buffer: 0, byteOffset: running position, byteLength: its
length}` with the position advanced by the blob's length. -/
structure BufferView where
  buffer : Nat
  byteOffset : Nat
  byteLength : Nat
deriving DecidableEq

def buildGlbViewsAux (pos : Nat) : List Bytes → List BufferView
  | [] => []
  | item :: rest =>
      ⟨0, pos, item.length⟩ :: buildGlbViewsAux (pos + item.length) rest

def buildGlbViews (items : List Bytes) : List BufferView :=
  buildGlbViewsAux 0 items

theorem buildGlbViewsAux_getD (pos : Nat) (items : List Bytes) (i : Nat)
    (h : i < items.length) :
    (buildGlbViewsAux pos items).getD i ⟨0, 0, 0⟩ =
      ⟨0, pos + (((items.take i).map List.length).sum),
        (items.getD i []).length⟩ := by
  induction items generalizing pos i with
  | nil => simp at h
  | cons x xs ih =>
      cases i with
      | zero => simp [buildGlbViewsAux, List.getD]
      | succ j =>
          have hj : j < xs.length := by simpa using h
          simp only [buildGlbViewsAux, List.take_succ_cons, List.map_cons,
            List.sum_cons]
          have := ih (pos + x.length) j hj
          simpa [List.getD, Nat.add_assoc] using this

theorem buildGlbViews_getD (items : List Bytes) (i : Nat)
    (h : i < items.length) :
    (buildGlbViews items).getD i ⟨0, 0, 0⟩ =
      ⟨0, (((items.take i).map List.length).sum), (items.getD i []).length⟩ := by
  simpa using buildGlbViewsAux_getD 0 items i h

/-! ### GLB container decode (`load_glb`, lines 244–319)

The file object is modelled as a byte list; `file_obj.read(n)` starting at
position `pos` returns `(data.drop pos).take n`, which may be shorter than
`n` when the file runs out.  The chunk-reading `while` loop (lines
294–312) becomes `loadGlbLoop`, recursing on the unread suffix of the
file.  The `fuel` argument only forces structural termination: the caller
passes `data.length + 1`, and every recursive call consumes at least 8
bytes of `remaining`, so the out-of-fuel branch is unreachable.  JSON
parsing of the first chunk is external; the model returns the raw JSON
chunk bytes together with the accumulated binary buffers, wrapped in
`Except` since every Python failure path is a raised exception (so no
partial scene ever escapes). -/

def loadGlbLoop (fuel : Nat) (remaining : Bytes) (consumed length : Nat)
    (acc : List Bytes) : Except String (List Bytes) :=
  match fuel with
  | 0 => .error "fuel exhausted (unreachable)"
  | fuel + 1 =>
    -- while (file_obj.tell() - start) < length:
    if length ≤ consumed then .ok acc
    else
      -- chunk_head = file_obj.read(8); break on a short read
      let chunkHead := remaining.take 8
      if chunkHead.length ≠ 8 then .ok acc
      else
        let chunkLength := dec4 chunkHead
        let chunkType := dec4 (chunkHead.drop 4)
        if chunkType ≠ binMagic then .error "not binary GLTF!"
        else
          let chunkData := (remaining.drop 8).take chunkLength
          if chunkData.length ≠ chunkLength then
            .error "chunk was not expected length!"
          else
            loadGlbLoop fuel (remaining.drop (8 + chunkLength))
              (consumed + 8 + chunkLength) length (acc ++ [chunkData])

def load_glb (data : Bytes) : Except String (Bytes × List Bytes) :=
  -- head_data = file_obj.read(20); np.frombuffer / tuple unpacking raise
  -- on any file shorter than 20 bytes
  let head := data.take 20
  if head.length ≠ 20 then .error "not enough bytes for GLB header"
  else
    if dec4 head ≠ gltfMagic ∨ dec4 (head.drop 4) ≠ 2 then
      .error "file is not GLTF 2.0"
    else
      let length := dec4 (head.drop 8)
      let chunkLength := dec4 (head.drop 12)
      let chunkType := dec4 (head.drop 16)
      if chunkType ≠ jsonMagic then .error "no initial JSON header!"
      else
        let jsonData := (data.drop 20).take chunkLength
        let pos := 20 + jsonData.length
        match loadGlbLoop (data.length + 1) (data.drop pos) pos length [] with
        | .error e => .error e
        | .ok buffers => .ok (jsonData, buffers)

theorem dec4_take {n : Nat} (l : Bytes) (h : 4 ≤ n) :
    dec4 (l.take n) = dec4 l := by
  have h0 : (0:Nat) < n := by omega
  have h1 : (1:Nat) < n := by omega
  have h2 : (2:Nat) < n := by omega
  have h3 : (3:Nat) < n := by omega
  simp [dec4, List.getD, List.getElem?_take, h0, h1, h2, h3]

/-! ### UV texture-coordinate flip

Export (`_append_mesh`, lines 568–570): `uv[:, 1] = 1.0 - uv[:, 1]` on a
copy of the internal UV array before serialization.  Import
(`_read_buffers`, lines 880–883): the same flip on a copy of the decoded
wire array.  UV rows are modelled as exact pairs in `ℚ`. -/

def uvToWire (uv : List (ℚ × ℚ)) : List (ℚ × ℚ) :=
  uv.map fun p => (p.1, 1 - p.2)

def uvFromWire (uv : List (ℚ × ℚ)) : List (ℚ × ℚ) :=
  uv.map fun p => (p.1, 1 - p.2)

/-! ### Node local-transform resolution (`_read_buffers`, lines 956–986)

A GLTF node as read from the JSON header.  `wireMatrix` is the result of
`np.array(child["matrix"]).reshape((4, 4))` (the code then applies `.T`);
`rotation` is the on-wire `(x, y, z, w)` quaternion; `translation` and
`scale` are 3-vectors. -/

structure GNode where
  name : Option String
  wireMatrix : Option (Matrix (Fin 4) (Fin 4) ℚ)
  translation : Option (ℚ × ℚ × ℚ)
  rotation : Option (ℚ × ℚ × ℚ × ℚ)
  scale : Option (ℚ × ℚ × ℚ)

/-- Modelled from the spec: `trimesh.transformations.translation_matrix`
(not under `src/`) — the standard homogeneous translation matrix placing
the offset in the last column ("right-multiplied by translation", §3). -/
def translationMatrix (t : ℚ × ℚ × ℚ) : Matrix (Fin 4) (Fin 4) ℚ :=
  !![1, 0, 0, t.1;
     0, 1, 0, t.2.1;
     0, 0, 1, t.2.2;
     0, 0, 0, 1]

/-- `np.diag(np.concatenate((child["scale"], [1.0])))`: a diagonal scale
matrix with homogeneous 1 (line 986). -/
def scaleMatrix (s : ℚ × ℚ × ℚ) : Matrix (Fin 4) (Fin 4) ℚ :=
  !![s.1, 0, 0, 0;
     0, s.2.1, 0, 0;
     0, 0, s.2.2, 0;
     0, 0, 0, 1]

/-- `np.reshape(child["rotation"], 4)[[3, 0, 1, 2]]`: reorder the wire
`(x, y, z, w)` quaternion to the internal `(w, x, y, z)` convention. -/
def reorderQuat (r : ℚ × ℚ × ℚ × ℚ) : ℚ × ℚ × ℚ × ℚ :=
  (r.2.2.2, r.1, r.2.1, r.2.2.1)

/-- The local transform of one node, exactly as accumulated by
`_read_buffers` lines 959–986.  `quatMat` stands for the external
`trimesh.transformations.quaternion_matrix` (not under `src/`); every
theorem quantifies over it. -/
def resolveNodeMatrix (quatMat : ℚ × ℚ × ℚ × ℚ → Matrix (Fin 4) (Fin 4) ℚ)
    (node : GNode) : Matrix (Fin 4) (Fin 4) ℚ :=
  -- kwargs["matrix"] = reshape((4,4)).T, or identity if absent
  let m := match node.wireMatrix with
    | some w => w.transpose
    | none => 1
  let m := match node.translation with
    | some t => m * translationMatrix t
    | none => m
  let m := match node.rotation with
    | some r => m * quatMat (reorderQuat r)
    | none => m
  match node.scale with
  | some s => m * scaleMatrix s
  | none => m

/-! ### Root frame naming (`_read_buffers`, lines 905–921)

`names` is a Python dict built with the integer node index as key and the
node's name (or `str(i)`) as value; the subsequent membership test
`base_frame in names` therefore searches the *keys*.  Keys are
heterogeneous once `names[base_frame] = base_frame` executes, so they are
modelled as a sum of the two Python key types in play. -/

inductive PyKey where
  | idx (n : Nat)
  | str (s : String)
deriving DecidableEq

/-- The `names` dict after the loop at lines 910–915 (before the
`names[base_frame]` insertion): integer keys, node names as values. -/
def nodeNames (nodes : List GNode) : List (PyKey × String) :=
  nodes.enum.map fun p => (PyKey.idx p.1, p.2.name.getD (toString p.1))

/-- Lines 917–920: `base_frame = "world"`, renamed to a random numeric
string only if `"world" in names` — a membership test on the dict *keys*.
`randName` stands for `str(int(np.random.random() * 1e10))`. -/
def baseFrameOf (randName : String) (nodes : List GNode) : String :=
  let names := nodeNames nodes
  let baseFrame := "world"
  if (names.map Prod.fst).contains (PyKey.str baseFrame) then randName
  else baseFrame

/-! ### The GLTF JSON tree and buffer items (`_create_gltf_structure`)

The mutable `tree` dict and the `buffer_items` list are threaded together
through `_append_mesh` / `_append_path` / `_append_material` /
`_append_image`; they become one state record.  Fields of the tree that no
helper reads or writes per geometry (`scene`, `scenes`, `asset`,
`samplers` — always `[{}]` — `cameras`, `extras`) are omitted; the final
culling of empty `textures`/`materials`/`images` keys only removes JSON
keys whose lists are empty and does not change any list. -/

structure AccessorEntry where
  bufferView : Nat
  componentType : Nat
  count : Nat
  type : String
  byteOffset : Option Nat
  normalized : Bool
  maxB : Option (List ℚ)
  minB : Option (List ℚ)
deriving DecidableEq

/-- One entry of `primitives[0]` of a mesh in the tree.  `_append_mesh`
and `_append_path` always emit a single-element `primitives` list, so the
primitive is stored inline. -/
structure Primitive where
  position : Nat
  indices : Option Nat
  mode : Nat
  color0 : Option Nat
  texcoord0 : Option Nat
  normal : Option Nat
  material : Option Nat
deriving DecidableEq

structure MeshEntry where
  name : String
  extrasUnits : Option String
  prim : Primitive
deriving DecidableEq

structure ImageEntry where
  bufferView : Nat
  mimeType : String
deriving DecidableEq

structure TextureEntry where
  source : Nat
  sampler : Nat
deriving DecidableEq

/-- A material as serialized by `_append_material`.  The texture slots
hold the texture index of the `{"index": i}` reference.  (On the wire
`baseColorFactor`, `metallicFactor`, `roughnessFactor`,
`baseColorTexture` and `metallicRoughnessTexture` are re-nested under
`pbrMetallicRoughness`; the nesting is a pure JSON-shape move of the same
values, lines 1154–1168.) -/
structure MaterialEntry where
  baseColorFactor : Option (List ℚ)
  emissiveFactor : Option (List ℚ)
  metallicFactor : Option ℚ
  roughnessFactor : Option ℚ
  baseColorTexture : Option Nat
  emissiveTexture : Option Nat
  normalTexture : Option Nat
  occlusionTexture : Option Nat
  metallicRoughnessTexture : Option Nat
deriving DecidableEq

/-- `_default_material` (lines 48–52), appended by `_append_path`. -/
def defaultMaterial : MaterialEntry :=
  { baseColorFactor := some [0, 0, 0, 0]
    emissiveFactor := none
    metallicFactor := some 0
    roughnessFactor := some 0
    baseColorTexture := none
    emissiveTexture := none
    normalTexture := none
    occlusionTexture := none
    metallicRoughnessTexture := none }

structure Tree where
  accessors : List AccessorEntry
  meshes : List MeshEntry
  images : List ImageEntry
  textures : List TextureEntry
  materials : List MaterialEntry
  bufferItems : List Bytes
deriving DecidableEq

def emptyTree : Tree := ⟨[], [], [], [], [], []⟩

/-- A source image handed to `_append_image`.  `format` is `none` when
the object has no `format` attribute (not a PIL image); `encoded` stands
for the bytes produced by `img.save(...)` — pixel encoding is the
external image collaborator, so the encoded bytes are data. -/
structure GImage where
  format : Option String
  encoded : Bytes
deriving DecidableEq

/-- A `PBRMaterial` as consumed by `_append_material` (after the optional
`to_pbr` conversion).  Factor fields are `none` when the corresponding
`try`-block fails / the `isinstance(…, float)` test fails. -/
structure PBRMaterial where
  baseColorFactor : Option (List ℚ)
  emissiveFactor : Option (List ℚ)
  metallicFactor : Option ℚ
  roughnessFactor : Option ℚ
  baseColorTexture : Option GImage
  emissiveTexture : Option GImage
  normalTexture : Option GImage
  occlusionTexture : Option GImage
  metallicRoughnessTexture : Option GImage
deriving DecidableEq

def emptyPBR : PBRMaterial :=
  ⟨none, none, none, none, none, none, none, none, none⟩

/-- A `trimesh.Trimesh` at the interface `_append_mesh` reads (§6 external
collaborator): geometry arrays in exact arithmetic, the visual kind tag,
the optional material and UV, and whether `'vertex_normals' in
mesh._cache.cache`. -/
structure TrimeshGeom where
  units : Option String
  faces : List (Nat × Nat × Nat)
  vertices : List (ℚ × ℚ × ℚ)
  visualKind : Option String
  vertexColors : List (Nat × Nat × Nat × Nat)
  hasMaterial : Bool
  material : PBRMaterial
  uv : Option (List (ℚ × ℚ))
  cacheHasVertexNormals : Bool
  vertexNormals : List (ℚ × ℚ × ℚ)
deriving DecidableEq

/-- A `Path2D`/`Path3D` at the interface `_append_path` reads.  `vxCount`
and `vxData` are `vxlist[0]` and the flattened `vxlist[4][1]` produced by
the external `rendering.path_to_vertexlist` collaborator. -/
structure PathGeom where
  units : Option String
  vertices : List (ℚ × ℚ × ℚ)
  vxCount : Nat
  vxData : List ℚ
deriving DecidableEq

inductive Geometry where
  | mesh (m : TrimeshGeom)
  | path (p : PathGeom)
deriving DecidableEq

/-- `'meter' in units` (substring containment, line 498/669). -/
def hasMeter (s : String) : Bool := (s.splitOn "meter").length ≠ 1

/-- The `extras: {"units": …}` field: present when units are defined and
do not mention meters. -/
def unitsExtra (units : Option String) : Option String :=
  match units with
  | some u => if hasMeter u then none else some u
  | none => none

/-- `mesh.faces.astype(uint32).tobytes()`: flat little-endian uint32s. -/
def facesBytes (faces : List (Nat × Nat × Nat)) : Bytes :=
  (faces.map fun f => le32 f.1 ++ le32 f.2.1 ++ le32 f.2.2).flatten

/-- `int(mesh.faces.max())` for nonempty faces (numpy raises on an empty
array; 0 is a total stand-in never relied on). -/
def facesMax (faces : List (Nat × Nat × Nat)) : Nat :=
  (faces.map fun f => max f.1 (max f.2.1 f.2.2)).foldl max 0

/-- `astype("<f4").tobytes()` of an `(n, 3)` float array, built from the
4-byte-per-scalar serialization `f32`. -/
def vec3Bytes (f32 : ℚ → Bytes) (vs : List (ℚ × ℚ × ℚ)) : Bytes :=
  (vs.map fun v => f32 v.1 ++ f32 v.2.1 ++ f32 v.2.2).flatten

def uvBytes (f32 : ℚ → Bytes) (uv : List (ℚ × ℚ)) : Bytes :=
  (uv.map fun p => f32 p.1 ++ f32 p.2).flatten

/-- `vertex_colors.astype(uint8).tobytes()` (values wrap modulo 256). -/
def colorBytes (cs : List (Nat × Nat × Nat × Nat)) : Bytes :=
  (cs.map fun c => [c.1 % 256, c.2.1 % 256, c.2.2.1 % 256, c.2.2.2 % 256]).flatten

/-- `…max(axis=0).tolist()` over the three coordinates (total stand-in 0
on the empty array, where numpy raises). -/
def axisMax (vs : List (ℚ × ℚ × ℚ)) : List ℚ :=
  [(vs.map fun v => v.1).foldl max ((vs.map fun v => v.1).headD 0),
   (vs.map fun v => v.2.1).foldl max ((vs.map fun v => v.2.1).headD 0),
   (vs.map fun v => v.2.2).foldl max ((vs.map fun v => v.2.2).headD 0)]

def axisMin (vs : List (ℚ × ℚ × ℚ)) : List ℚ :=
  [(vs.map fun v => v.1).foldl min ((vs.map fun v => v.1).headD 0),
   (vs.map fun v => v.2.1).foldl min ((vs.map fun v => v.2.1).headD 0),
   (vs.map fun v => v.2.2).foldl min ((vs.map fun v => v.2.2).headD 0)]

/-- In-place mutation of `tree["meshes"][-1]`. -/
def updateLast {α : Type} : List α → (α → α) → List α
  | [], _ => []
  | [a], f => [f a]
  | a :: b :: rest, f => a :: updateLast (b :: rest) f

/-- `_append_image` (lines 1037–1082): skip objects without a `format`
attribute; keep JPEGs, use PNG otherwise; append the image record (whose
`bufferView` is the current blob count) and the padded encoded bytes;
return the new image index. -/
def appendImage (img : GImage) (st : Tree) : Tree × Option Nat :=
  match img.format with
  | none => (st, none)
  | some fmt =>
      let saveAs := if fmt = "JPEG" then "jpeg" else "png"
      let st' : Tree := { st with
        images := st.images ++
          [⟨st.bufferItems.length, "image/" ++ saveAs⟩],
        bufferItems := st.bufferItems ++ [byte_pad img.encoded] }
      (st', some (st'.images.length - 1))

/-- One iteration of the `image_mapping` loop in `_append_material`
(lines 1138–1152): try to append the image; on success the material slot
gets the next texture index and a texture entry `{source, sampler: 0}` is
appended. -/
def appendTextureSlot (img? : Option GImage) (st : Tree) : Tree × Option Nat :=
  match img? with
  | none => (st, none)
  | some img =>
      match appendImage img st with
      | (st', none) => (st', none)
      | (st', some index) =>
          ({ st' with textures := st'.textures ++ [⟨index, 0⟩] },
            some st'.textures.length)

/-- `_append_material` (lines 1085–1171): copy the factor fields that
survive their `try`/`isinstance` guards, process the five texture slots in
`image_mapping` insertion order, then append the material. -/
def appendMaterial (mat : PBRMaterial) (st : Tree) : Tree :=
  let r1 := appendTextureSlot mat.baseColorTexture st
  let r2 := appendTextureSlot mat.emissiveTexture r1.1
  let r3 := appendTextureSlot mat.normalTexture r2.1
  let r4 := appendTextureSlot mat.occlusionTexture r3.1
  let r5 := appendTextureSlot mat.metallicRoughnessTexture r4.1
  { r5.1 with materials := r5.1.materials ++
      [{ baseColorFactor := mat.baseColorFactor
         emissiveFactor := mat.emissiveFactor
         metallicFactor := mat.metallicFactor
         roughnessFactor := mat.roughnessFactor
         baseColorTexture := r1.2
         emissiveTexture := r2.2
         normalTexture := r3.2
         occlusionTexture := r4.2
         metallicRoughnessTexture := r5.2 }] }

/-- `_append_mesh` (lines 462–599), state-passing.  Appends happen in
source order; every mutation of `tree["meshes"][-1]` is an `updateLast`. -/
def appendMesh (f32 : ℚ → Bytes) (includeNormals : Option Bool)
    (st : Tree) (name : String) (m : TrimeshGeom) : Tree :=
  -- tree["meshes"].append: POSITION = len(accessors) + 1, indices = len(accessors)
  let st : Tree := { st with meshes := st.meshes ++
    [{ name := name
       extrasUnits := unitsExtra m.units
       prim := { position := st.accessors.length + 1
                 indices := some st.accessors.length
                 mode := 4
                 color0 := none, texcoord0 := none
                 normal := none, material := none } }] }
  -- face accessor (componentType 5125) and the padded face blob
  let st : Tree := { st with
    accessors := st.accessors ++
      [{ bufferView := st.bufferItems.length
         componentType := 5125
         count := m.faces.length * 3
         type := "SCALAR"
         byteOffset := none
         normalized := false
         maxB := some [(facesMax m.faces : ℚ)]
         minB := some [0] }],
    bufferItems := st.bufferItems ++ [byte_pad (facesBytes m.faces)] }
  -- vertex accessor (componentType 5126) and the padded vertex blob
  let st : Tree := { st with
    accessors := st.accessors ++
      [{ bufferView := st.bufferItems.length
         componentType := 5126
         count := m.vertices.length
         type := "VEC3"
         byteOffset := some 0
         normalized := false
         maxB := some (axisMax m.vertices)
         minB := some (axisMin m.vertices) }],
    bufferItems := st.bufferItems ++ [byte_pad (vec3Bytes f32 m.vertices)] }
  -- if mesh.visual.kind in ['vertex', 'face']: vertex colors
  let st :=
    if m.visualKind = some "vertex" ∨ m.visualKind = some "face" then
      let st : Tree := { st with meshes := updateLast st.meshes fun e =>
        { e with prim := { e.prim with color0 := some st.accessors.length } } }
      { st with
        accessors := st.accessors ++
          [{ bufferView := st.bufferItems.length
             componentType := 5121
             count := m.vertexColors.length
             type := "VEC4"
             byteOffset := some 0
             normalized := true
             maxB := none, minB := none }],
        bufferItems := st.bufferItems ++ [byte_pad (colorBytes m.vertexColors)] }
    -- elif hasattr(mesh.visual, 'material'):
    else if m.hasMaterial then
      let st : Tree := { st with meshes := updateLast st.meshes fun e =>
        { e with prim := { e.prim with material := some st.materials.length } } }
      let st := appendMaterial m.material st
      -- if mesh.visual has UV of shape (len(vertices), 2): flip and store
      match m.uv with
      | some uvs =>
          if uvs.length = m.vertices.length then
            let st : Tree := { st with meshes := updateLast st.meshes fun e =>
              { e with prim :=
                  { e.prim with texcoord0 := some st.accessors.length } } }
            { st with
              accessors := st.accessors ++
                [{ bufferView := st.bufferItems.length
                   componentType := 5126
                   count := uvs.length
                   type := "VEC2"
                   byteOffset := some 0
                   normalized := false
                   maxB := none, minB := none }],
              bufferItems := st.bufferItems ++
                [byte_pad (uvBytes f32 (uvToWire uvs))] }
          else st
      | none => st
    else st
  -- if (include_normals or (include_normals is None and
  --     'vertex_normals' in mesh._cache.cache)):
  if includeNormals = some true ∨
      (includeNormals = none ∧ m.cacheHasVertexNormals) then
    let st : Tree := { st with meshes := updateLast st.meshes fun e =>
      { e with prim := { e.prim with normal := some st.accessors.length } } }
    { st with
      accessors := st.accessors ++
        [{ bufferView := st.bufferItems.length
           componentType := 5126
           count := m.vertices.length
           type := "VEC3"
           byteOffset := some 0
           normalized := false
           maxB := none, minB := none }],
      bufferItems := st.bufferItems ++
        [byte_pad (vec3Bytes f32 m.vertexNormals)] }
  else st

/-- `_append_path` (lines 639–689). -/
def appendPath (f32 : ℚ → Bytes) (st : Tree) (name : String)
    (p : PathGeom) : Tree :=
  let st : Tree := { st with meshes := st.meshes ++
    [{ name := name
       extrasUnits := unitsExtra p.units
       prim := { position := st.accessors.length
                 indices := none
                 mode := 1
                 color0 := none, texcoord0 := none, normal := none
                 material := some st.materials.length } }] }
  let st : Tree := { st with accessors := st.accessors ++
    [{ bufferView := st.bufferItems.length
       componentType := 5126
       count := p.vxCount
       type := "VEC3"
       byteOffset := some 0
       normalized := false
       maxB := some (axisMax p.vertices)
       minB := some (axisMin p.vertices) }] }
  let st : Tree := { st with materials := st.materials ++ [defaultMaterial] }
  { st with bufferItems := st.bufferItems ++
      [byte_pad ((p.vxData.map f32).flatten)] }

/-- The per-geometry dispatch of `_create_gltf_structure` (lines
430–445). -/
def appendGeometry (f32 : ℚ → Bytes) (includeNormals : Option Bool)
    (st : Tree) (g : String × Geometry) : Tree :=
  match g.2 with
  | .mesh m => appendMesh f32 includeNormals st g.1 m
  | .path p => appendPath f32 st g.1 p

/-- `_create_gltf_structure` (lines 385–459): fold the geometries of the
scene into the tree in iteration order. -/
def createGltfStructure (f32 : ℚ → Bytes) (includeNormals : Option Bool)
    (geoms : List (String × Geometry)) : Tree :=
  geoms.foldl (appendGeometry f32 includeNormals) emptyTree

/-! ### `export_gltf` (lines 60–113)

A scene is its geometry list; `scene.geometry.items()` iterates in
insertion order.  The loop over `enumerate(buffer_items)` builds, for each
index `i`: a view `{buffer: i, byteOffset: 0, byteLength: len(item_i)}`, a
padded data blob from the slice `buffer_items[i : i + 2]` (note: *two*
adjacent blobs), a file named `gltf_buffer_<i>.bin` holding that blob, and
a buffer record with the blob's padded length.  `json.dumps(tree)` is the
external `jsonDump` parameter. -/

structure BufferMeta where
  uri : String
  byteLength : Nat
deriving DecidableEq

structure GltfExport where
  tree : Tree
  views : List BufferView
  buffers : List BufferMeta
  files : List (String × Bytes)
deriving DecidableEq

def bufferFileName (i : Nat) : String := "gltf_buffer_" ++ toString i ++ ".bin"

/-- `_byte_pad(bytes().join(buffer_items[i : i + 2]))` for index `i`. -/
def gltfFileData (items : List Bytes) (i : Nat) : Bytes :=
  byte_pad ((items.drop i).take 2).flatten

def export_gltf (f32 : ℚ → Bytes)
    (jsonDump : Tree × List BufferView × List BufferMeta → Bytes)
    (geoms : List (String × Geometry))
    (includeNormals : Option Bool := some false) : GltfExport :=
  let tree := createGltfStructure f32 includeNormals geoms
  let items := tree.bufferItems
  let views := (List.range items.length).map fun i =>
    (⟨i, 0, (items.getD i []).length⟩ : BufferView)
  let buffers := (List.range items.length).map fun i =>
    (⟨bufferFileName i, (gltfFileData items i).length⟩ : BufferMeta)
  let binFiles := (List.range items.length).map fun i =>
    (bufferFileName i, gltfFileData items i)
  { tree := tree
    views := views
    buffers := buffers
    files := binFiles ++ [("model.gltf", jsonDump (tree, views, buffers))] }

/-! ### `export_glb` (lines 116–195)

Build the tree, derive the single-buffer views with their running
offsets, join all blobs, and emit the framed binary container. -/

def exportGlbTree (f32 : ℚ → Bytes) (geoms : List (String × Geometry))
    (includeNormals : Option Bool := some false) :
    Tree × List BufferView × Nat :=
  let tree := createGltfStructure f32 includeNormals geoms
  let views := buildGlbViews tree.bufferItems
  let bufferData := tree.bufferItems.flatten
  (tree, views, bufferData.length)

def export_glb (f32 : ℚ → Bytes)
    (jsonDump : Tree × List BufferView × Nat → Bytes)
    (geoms : List (String × Geometry))
    (includeNormals : Option Bool := some false) : Bytes :=
  let tree := createGltfStructure f32 includeNormals geoms
  let bufferData := tree.bufferItems.flatten
  glbLayout (jsonDump (exportGlbTree f32 geoms includeNormals)) bufferData

/-! ### Shared concrete sample data for witnesses and counterexamples -/

/-- A single-triangle mesh with no visual data. -/
def sampleMesh : TrimeshGeom :=
  { units := none
    faces := [(0, 1, 2)]
    vertices := [(0, 0, 0), (1, 0, 0), (0, 1, 0)]
    visualKind := none
    vertexColors := []
    hasMaterial := false
    material := emptyPBR
    uv := none
    cacheHasVertexNormals := false
    vertexNormals := [] }

/-- A concrete stand-in for the external float32 serializer: any function
producing 4 bytes per scalar instantiates the quantified theorems. -/
def f32c : ℚ → Bytes := fun _ => [0, 0, 0, 0]

/-! ## Claim theorems -/

theorem drop4_le32_append (n : Nat) (rest : Bytes) :
    (le32 n ++ rest).drop 4 = rest := rfl

theorem glbLayout_eq (c d : Bytes) :
    glbLayout c d =
      le32 gltfMagic ++ (le32 2 ++
        (le32 ((c.length + (4 - (c.length + 20) % 4)) + d.length + 28) ++
          (le32 (c.length + (4 - (c.length + 20) % 4)) ++
            (le32 jsonMagic ++
              ((c ++ List.replicate (4 - (c.length + 20) % 4) 32) ++
                (le32 d.length ++ (le32 binMagic ++ d))))))) := by
  show byte_pad _ ++ _ ++ byte_pad _ ++ _ = _
  rw [byte_pad_of_aligned (by simp [le32]), byte_pad_of_aligned (by simp [le32])]
  simp [List.append_assoc, le32]

theorem glbLayout_length (c d : Bytes) :
    (glbLayout c d).length =
      (c.length + (4 - (c.length + 20) % 4)) + d.length + 28 := by
  rw [glbLayout_eq]
  simp [le32]
  omega

theorem glbLayout_fields (c d : Bytes) :
    u32At (glbLayout c d) 0 = gltfMagic ∧
    u32At (glbLayout c d) 4 = 2 ∧
    u32At (glbLayout c d) 8 = (glbLayout c d).length % 4294967296 := by
  refine ⟨?_, ?_, ?_⟩
  · rw [u32At, List.drop_zero, glbLayout_eq, dec4_le32_append]
    decide
  · rw [u32At, glbLayout_eq, drop4_le32_append, dec4_le32_append]
  · rw [u32At, glbLayout_length, glbLayout_eq]
    have h8 : (8 : ℕ) = 4 + 4 := rfl
    rw [h8, ← List.drop_drop, drop4_le32_append, drop4_le32_append,
      dec4_le32_append]

/-- C1: every byte blob produced by `export_glb` starts with a 20-byte
header whose bytes `[0:4]` decode (little-endian uint32) to the GLTF magic
`0x46546C67`, whose bytes `[4:8]` decode to 2, and whose bytes `[8:12]`
decode to the exact total byte length of the output (the stored field is
a uint32, so exactness requires the total length to fit in 32 bits). -/
theorem exportGlb_header_C1 (f32 : ℚ → Bytes)
    (jsonDump : Tree × List BufferView × Nat → Bytes)
    (geoms : List (String × Geometry)) (includeNormals : Option Bool) :
    u32At (export_glb f32 jsonDump geoms includeNormals) 0 = 1179937895 ∧
    u32At (export_glb f32 jsonDump geoms includeNormals) 4 = 2 ∧
    ((export_glb f32 jsonDump geoms includeNormals).length < 4294967296 →
      u32At (export_glb f32 jsonDump geoms includeNormals) 8 =
        (export_glb f32 jsonDump geoms includeNormals).length) := by
  obtain ⟨h0, h4, h8⟩ := glbLayout_fields
    (jsonDump (exportGlbTree f32 geoms includeNormals))
    ((createGltfStructure f32 includeNormals geoms).bufferItems.flatten)
  exact ⟨h0, h4, fun hlt => by
    rw [export_glb] at hlt ⊢
    rw [h8, Nat.mod_eq_of_lt hlt]⟩

/-- Witness for C1 at a concrete (empty) scene. -/
theorem exportGlb_header_C1_witness :
    u32At (export_glb f32c (fun _ => []) [] none) 8 =
      (export_glb f32c (fun _ => []) [] none).length :=
  (exportGlb_header_C1 f32c (fun _ => []) [] none).2.2 (by decide)

/-- C2: in the tree produced by `export_glb`, the i-th bufferView records
buffer 0, a byteOffset equal to the sum of the lengths of the
(already-padded) blobs appended before it, and a byteLength equal to the
length of blob i. -/
theorem exportGlb_views_C2 (f32 : ℚ → Bytes)
    (geoms : List (String × Geometry)) (includeNormals : Option Bool)
    (i : Nat)
    (h : i < (exportGlbTree f32 geoms includeNormals).1.bufferItems.length) :
    (exportGlbTree f32 geoms includeNormals).2.1.getD i ⟨0, 0, 0⟩ =
      ⟨0,
        ((((exportGlbTree f32 geoms includeNormals).1.bufferItems.take i).map
          List.length).sum),
        ((exportGlbTree f32 geoms includeNormals).1.bufferItems.getD i
          []).length⟩ :=
  buildGlbViews_getD _ i h

/-- Witness for C2: a one-mesh scene has two blobs (faces then vertices);
the second view starts where the first blob ends. -/
theorem exportGlb_views_C2_witness :
    (exportGlbTree f32c [("m", Geometry.mesh sampleMesh)] none).2.1.getD 1
        ⟨0, 0, 0⟩ =
      ⟨0,
        ((((exportGlbTree f32c [("m", Geometry.mesh sampleMesh)]
          none).1.bufferItems.take 1).map List.length).sum),
        ((exportGlbTree f32c [("m", Geometry.mesh sampleMesh)]
          none).1.bufferItems.getD 1 []).length⟩ :=
  exportGlb_views_C2 f32c [("m", Geometry.mesh sampleMesh)] none 1 (by decide)

/-- C6: the v-axis flip `v_wire = 1 - v_internal` is applied by
`_append_mesh` on export and by `_read_buffers` on import, so the
export/import round trip is the identity on UV arrays (and the flip is an
involution). -/
theorem uv_flip_roundtrip_C6 (uv : List (ℚ × ℚ)) :
    uvFromWire (uvToWire uv) = uv ∧ uvToWire (uvFromWire uv) = uv := by
  constructor <;>
    simp [uvToWire, uvFromWire, List.map_map, Function.comp_def,
      sub_sub_cancel]

/-- C4: on import the local node transform is the explicit matrix
(identity if absent; the wire matrix is transposed, being stored
column-major), right-multiplied — only when the field is present, and
cumulatively when several are — by the translation matrix, then by the
rotation matrix of the wire `(x, y, z, w)` quaternion reordered to
`(w, x, y, z)`, then by the diagonal scale matrix with homogeneous 1.
`quatMat` is the external quaternion-to-matrix conversion. -/
theorem node_transform_C4
    (quatMat : ℚ × ℚ × ℚ × ℚ → Matrix (Fin 4) (Fin 4) ℚ) (node : GNode) :
    resolveNodeMatrix quatMat node =
      (node.wireMatrix.elim 1 Matrix.transpose) *
        (node.translation.elim 1 translationMatrix) *
        (node.rotation.elim 1 fun r => quatMat (r.2.2.2, r.1, r.2.1, r.2.2.1)) *
        (node.scale.elim 1 scaleMatrix) := by
  obtain ⟨nm, wm, tr, rot, sc⟩ := node
  cases wm <;> cases tr <;> cases rot <;> cases sc <;>
    simp [resolveNodeMatrix, reorderQuat]

/-- A node whose wire name is the root-frame sentinel. -/
def worldNode : GNode :=
  { name := some "world"
    wireMatrix := none
    translation := none
    rotation := none
    scale := none }

/-- C9 (code bug): the collision test `base_frame in names` looks at the
dict's integer keys, so the root frame keeps the name `"world"` even when
a node carries exactly that name — the claimed rename never happens and
the collision survives. -/
theorem base_frame_C9_bug :
    baseFrameOf "4039455774" [worldNode] = "world" ∧
    ((nodeNames [worldNode]).map Prod.snd).contains "world" = true := by
  constructor <;> decide

/-- C5: `load_glb` fails when the header magic is wrong or the version is
not 2; fails when the first chunk type is not the JSON magic; the chunk
loop fails when a chunk's type is not the binary magic or when fewer bytes
than the declared chunk length are available; and an error result never
coexists with a scene result. -/
theorem load_glb_errors_C5 :
    (∀ data : Bytes, 20 ≤ data.length →
      dec4 data ≠ gltfMagic ∨ u32At data 4 ≠ 2 →
      load_glb data = .error "file is not GLTF 2.0") ∧
    (∀ data : Bytes, 20 ≤ data.length →
      dec4 data = gltfMagic → u32At data 4 = 2 → u32At data 16 ≠ jsonMagic →
      load_glb data = .error "no initial JSON header!") ∧
    (∀ (fuel : Nat) (remaining : Bytes) (consumed length : Nat)
        (acc : List Bytes),
      consumed < length → 8 ≤ remaining.length →
      dec4 (remaining.drop 4) ≠ binMagic →
      loadGlbLoop (fuel + 1) remaining consumed length acc =
        .error "not binary GLTF!") ∧
    (∀ (fuel : Nat) (remaining : Bytes) (consumed length : Nat)
        (acc : List Bytes),
      consumed < length → 8 ≤ remaining.length →
      dec4 (remaining.drop 4) = binMagic →
      remaining.length - 8 < dec4 remaining →
      loadGlbLoop (fuel + 1) remaining consumed length acc =
        .error "chunk was not expected length!") ∧
    (∀ (data : Bytes) (e : String), load_glb data = .error e →
      ¬ ∃ r, load_glb data = .ok r) := by
  refine ⟨?_, ?_, ?_, ?_, ?_⟩
  · intro data h20 hbad
    have hn : ¬ ((data.take 20).length ≠ 20) := by
      rw [List.length_take]; omega
    have e1 : dec4 (data.take 20) = dec4 data := dec4_take _ (by omega)
    have e2 : dec4 ((data.take 20).drop 4) = u32At data 4 := by
      rw [List.drop_take]; exact dec4_take _ (by omega)
    simp only [load_glb]
    rw [if_neg hn, if_pos (by rw [e1, e2]; exact hbad)]
  · intro data h20 hm hv hj
    have hn : ¬ ((data.take 20).length ≠ 20) := by
      rw [List.length_take]; omega
    have e1 : dec4 (data.take 20) = dec4 data := dec4_take _ (by omega)
    have e2 : dec4 ((data.take 20).drop 4) = u32At data 4 := by
      rw [List.drop_take]; exact dec4_take _ (by omega)
    have e16 : dec4 ((data.take 20).drop 16) = u32At data 16 := by
      rw [List.drop_take]; exact dec4_take _ (by omega)
    simp only [load_glb]
    rw [if_neg hn, if_neg (by rw [e1, e2]; simp [hm, hv]),
      if_pos (by rw [e16]; exact hj)]
  · intro fuel remaining consumed length acc hlt hlen htyp
    have hhd : ¬ ((remaining.take 8).length ≠ 8) := by
      rw [List.length_take]; omega
    have et : dec4 ((remaining.take 8).drop 4) = dec4 (remaining.drop 4) := by
      rw [List.drop_take]; exact dec4_take _ (by omega)
    simp only [loadGlbLoop]
    rw [if_neg (by omega), if_neg hhd, if_pos (by rw [et]; exact htyp)]
  · intro fuel remaining consumed length acc hlt hlen htyp hshort
    have hhd : ¬ ((remaining.take 8).length ≠ 8) := by
      rw [List.length_take]; omega
    have et : dec4 ((remaining.take 8).drop 4) = dec4 (remaining.drop 4) := by
      rw [List.drop_take]; exact dec4_take _ (by omega)
    have ec : dec4 (remaining.take 8) = dec4 remaining := dec4_take _ (by omega)
    have hdata :
        ((remaining.drop 8).take (dec4 (remaining.take 8))).length ≠
          dec4 (remaining.take 8) := by
      rw [List.length_take, List.length_drop, ec]
      omega
    simp only [loadGlbLoop]
    rw [if_neg (by omega), if_neg hhd, if_neg (by rw [et]; simp [htyp]),
      if_pos hdata]
  · intro data e he hr
    obtain ⟨r, hr⟩ := hr
    rw [he] at hr
    simp at hr

/-- Concrete witness inputs for the `load_glb` error paths. -/
theorem load_glb_errors_C5_witness :
    load_glb (List.replicate 20 0) = .error "file is not GLTF 2.0" ∧
    load_glb [103, 108, 84, 70, 2, 0, 0, 0, 0, 0, 0, 0, 0, 0, 0, 0,
      9, 9, 9, 9] = .error "no initial JSON header!" ∧
    loadGlbLoop (0 + 1) [0, 0, 0, 0, 1, 1, 1, 1] 0 10 [] =
      .error "not binary GLTF!" ∧
    loadGlbLoop (0 + 1) [9, 0, 0, 0, 66, 73, 78, 0] 0 10 [] =
      .error "chunk was not expected length!" ∧
    ¬ ∃ r, load_glb (List.replicate 20 0) = .ok r :=
  ⟨load_glb_errors_C5.1 _ (by decide) (Or.inl (by decide)),
   load_glb_errors_C5.2.1 _ (by decide) (by decide) (by decide) (by decide),
   load_glb_errors_C5.2.2.1 0 _ 0 10 [] (by decide) (by decide) (by decide),
   load_glb_errors_C5.2.2.2.1 0 _ 0 10 [] (by decide) (by decide) (by decide)
     (by decide),
   load_glb_errors_C5.2.2.2.2 _ _
     (load_glb_errors_C5.1 _ (by decide) (Or.inl (by decide)))⟩

/-- C10: when fewer than 8 bytes remain before the declared total length,
the chunk loop breaks out of the short header read and returns the buffers
accumulated so far; end to end, `load_glb` succeeds on such input,
silently ignoring the trailing bytes. -/
theorem load_glb_trailing_C10 :
    (∀ (fuel : Nat) (remaining : Bytes) (consumed length : Nat)
        (acc : List Bytes),
      consumed < length → remaining.length < 8 →
      loadGlbLoop (fuel + 1) remaining consumed length acc = .ok acc) ∧
    (∀ data : Bytes, 20 ≤ data.length →
      dec4 data = gltfMagic → u32At data 4 = 2 → u32At data 16 = jsonMagic →
      20 + u32At data 12 ≤ data.length →
      20 + u32At data 12 < u32At data 8 →
      data.length < 20 + u32At data 12 + 8 →
      load_glb data = .ok ((data.drop 20).take (u32At data 12), [])) := by
  have loopBreak : ∀ (fuel : Nat) (remaining : Bytes)
      (consumed length : Nat) (acc : List Bytes),
      consumed < length → remaining.length < 8 →
      loadGlbLoop (fuel + 1) remaining consumed length acc = .ok acc := by
    intro fuel remaining consumed length acc hlt hlen
    have hhd : (remaining.take 8).length ≠ 8 := by
      rw [List.length_take]; omega
    simp only [loadGlbLoop]
    rw [if_neg (by omega), if_pos hhd]
  refine ⟨loopBreak, ?_⟩
  intro data h20 hm hv hj hfit hlt htrail
  have hn : ¬ ((data.take 20).length ≠ 20) := by
    rw [List.length_take]; omega
  have e1 : dec4 (data.take 20) = dec4 data := dec4_take _ (by omega)
  have e2 : dec4 ((data.take 20).drop 4) = u32At data 4 := by
    rw [List.drop_take]; exact dec4_take _ (by omega)
  have e8 : dec4 ((data.take 20).drop 8) = u32At data 8 := by
    rw [List.drop_take]; exact dec4_take _ (by omega)
  have e12 : dec4 ((data.take 20).drop 12) = u32At data 12 := by
    rw [List.drop_take]; exact dec4_take _ (by omega)
  have e16 : dec4 ((data.take 20).drop 16) = u32At data 16 := by
    rw [List.drop_take]; exact dec4_take _ (by omega)
  have hjson : ((data.drop 20).take (u32At data 12)).length = u32At data 12 := by
    rw [List.length_take, List.length_drop]; omega
  simp only [load_glb]
  rw [if_neg hn, if_neg (by rw [e1, e2]; simp [hm, hv]),
    if_neg (by rw [e16]; simp [hj]), e12, e8, hjson]
  have hfuel : data.length + 1 = data.length + 1 := rfl
  rw [loopBreak data.length (data.drop (20 + u32At data 12))
    (20 + u32At data 12) (u32At data 8) [] hlt
    (by rw [List.length_drop]; omega)]

theorem appendTextureSlot_meshes (img? : Option GImage) (st : Tree) :
    (appendTextureSlot img? st).1.meshes = st.meshes := by
  cases img? with
  | none => rfl
  | some img => cases himg : img.format <;> simp [appendTextureSlot, appendImage, himg]

theorem appendMaterial_meshes (mat : PBRMaterial) (st : Tree) :
    (appendMaterial mat st).meshes = st.meshes := by
  simp [appendMaterial, appendTextureSlot_meshes]

theorem updateLast_singleton {α : Type} (a : α) (f : α → α) :
    updateLast [a] f = [f a] := rfl

theorem updateLast_cons_cons {α : Type} (a b : α) (l : List α) (f : α → α) :
    updateLast (a :: b :: l) f = a :: updateLast (b :: l) f := rfl

theorem updateLast_concat {α : Type} (l : List α) (e : α) (f : α → α) :
    updateLast (l ++ [e]) f = l ++ [f e] := by
  induction l with
  | nil => rfl
  | cons a t ih =>
      cases t with
      | nil => rfl
      | cons b t' =>
          show a :: updateLast ((b :: t') ++ [e]) f = _
          rw [ih]
          rfl

/-- The one-mesh scene used by the C3 evaluation. -/
def c3res : GltfExport :=
  export_gltf f32c (fun _ => []) [("m", Geometry.mesh sampleMesh)] (some false)

/-- C3 (code bug): a single-triangle mesh produces two logical blobs (12
bytes of faces, 36 bytes of vertices).  The bufferViews do declare the
unpadded single-blob lengths, and there is one `gltf_buffer_<i>.bin` file
per blob — but file `i` is written from the slice `buffer_items[i:i+2]`,
so `gltf_buffer_0.bin` contains blob 0 *and* blob 1 (48 bytes) instead of
the padded blob 0 alone. -/
theorem export_gltf_pairing_C3_bug :
    (c3res.tree.bufferItems.map List.length) = [12, 36] ∧
    (c3res.views.map fun v => (v.buffer, v.byteOffset, v.byteLength)) =
      [(0, 0, 12), (1, 0, 36)] ∧
    (c3res.files.map Prod.fst) =
      ["gltf_buffer_0.bin", "gltf_buffer_1.bin", "model.gltf"] ∧
    (c3res.files.getD 0 ("", [])).2 =
      byte_pad ((c3res.tree.bufferItems.getD 0 []) ++
        (c3res.tree.bufferItems.getD 1 [])) ∧
    (c3res.files.getD 0 ("", [])).2 ≠
      byte_pad (c3res.tree.bufferItems.getD 0 []) := by
  refine ⟨by decide, by decide, ?_, by decide, by decide⟩
  decide

/-- A mesh whose computed-value cache already holds vertex normals. -/
def c7mesh : TrimeshGeom :=
  { sampleMesh with
    cacheHasVertexNormals := true
    vertexNormals := [(0, 0, 1), (0, 0, 1), (0, 0, 1)] }

/-- C7 counterexample: calling `export_gltf` with its *default* arguments
(the source default is `include_normals=False`, not unset/None) on a mesh
whose cache holds vertex normals does not export normals, contradicting
the claim that the default behaviour is cache-driven. -/
theorem include_normals_C7_cex :
    ((export_gltf f32c (fun _ => [])
        [("m", Geometry.mesh c7mesh)]).tree.meshes.map
      fun e => e.prim.normal) = [none] ∧
    c7mesh.cacheHasVertexNormals = true := by
  constructor <;> decide

set_option maxHeartbeats 1600000 in
/-- C7 (amended): a mesh's `NORMAL` attribute is exported iff
`include_normals` is `True`, or is `None` *and* the mesh's cache holds
vertex normals; but the export functions' own default argument is
`False` (normals suppressed), not None/unset. -/
theorem include_normals_C7_amended :
    (∀ (f32 : ℚ → Bytes) (includeNormals : Option Bool) (st : Tree)
        (name : String) (m : TrimeshGeom),
      ((appendMesh f32 includeNormals st name m).meshes.getLast?.map
          fun e => e.prim.normal.isSome) =
        some (includeNormals == some true ||
          (includeNormals == none && m.cacheHasVertexNormals))) ∧
    (∀ f32 jsonDump geoms, export_gltf f32 jsonDump geoms =
      export_gltf f32 jsonDump geoms (some false)) ∧
    (∀ f32 jsonDump geoms, export_glb f32 jsonDump geoms =
      export_glb f32 jsonDump geoms (some false)) := by
  refine ⟨?_, fun _ _ _ => rfl, fun _ _ _ => rfl⟩
  intro f32 includeNormals st name m
  rcases hu : m.uv with _ | uvs <;>
    rcases hcache : m.cacheHasVertexNormals with _ | _ <;>
    rcases includeNormals with _ | (_ | _) <;>
    · simp only [appendMesh, hu]
      split_ifs <;>
        simp_all [updateLast_concat, List.getLast?_concat, appendMaterial_meshes]

/-- The texture image shared by both meshes in the C8 scenario. -/
def c8img : GImage := { format := some "PNG", encoded := [9, 9, 9, 9] }

/-- The single material shared by both meshes in the C8 scenario. -/
def c8mat : PBRMaterial := { emptyPBR with baseColorTexture := some c8img }

/-- A mesh carrying the shared textured material. -/
def c8mesh : TrimeshGeom :=
  { sampleMesh with hasMaterial := true, material := c8mat }

/-- C8 counterexample: two meshes sharing one material with one texture
image export *two* image entries and *two* texture entries — `_append_material`
is invoked once per mesh and performs no deduplication — and the two
materials reference the distinct texture indices 0 and 1. -/
theorem texture_dedup_C8_cex :
    ((createGltfStructure f32c (some false)
      [("a", Geometry.mesh c8mesh), ("b", Geometry.mesh c8mesh)]).images.length
        = 2) ∧
    ((createGltfStructure f32c (some false)
      [("a", Geometry.mesh c8mesh), ("b", Geometry.mesh c8mesh)]).textures.length
        = 2) ∧
    ((createGltfStructure f32c (some false)
      [("a", Geometry.mesh c8mesh), ("b", Geometry.mesh c8mesh)]).materials.map
        fun me => me.baseColorTexture) = [some 0, some 1] :=
  ⟨by decide, by decide, by decide⟩

set_option maxHeartbeats 1600000 in
/-- C8 (amended): a scene of two meshes sharing one material with one
texture image exports one image entry, one texture entry and one material
entry *per mesh* — two of each, not one — and the two materials' texture
slots reference the distinct texture indices 0 and 1 (texture i sourcing
image i, mesh i referencing material i). -/
theorem texture_dedup_C8_amended
    (f32 : ℚ → Bytes) (n1 n2 : String) (m1 m2 : TrimeshGeom)
    (mat : PBRMaterial) (img : GImage) (fmt : String)
    (h1k : m1.visualKind = none) (h1m : m1.hasMaterial = true)
    (h1mat : m1.material = mat) (h1u : m1.uv = none)
    (h1c : m1.cacheHasVertexNormals = false)
    (h2k : m2.visualKind = none) (h2m : m2.hasMaterial = true)
    (h2mat : m2.material = mat) (h2u : m2.uv = none)
    (h2c : m2.cacheHasVertexNormals = false)
    (hb : mat.baseColorTexture = some img)
    (he : mat.emissiveTexture = none) (hn : mat.normalTexture = none)
    (ho : mat.occlusionTexture = none)
    (hmr : mat.metallicRoughnessTexture = none)
    (hf : img.format = some fmt) :
    ((createGltfStructure f32 (some false)
      [(n1, Geometry.mesh m1), (n2, Geometry.mesh m2)]).images.length = 2) ∧
    ((createGltfStructure f32 (some false)
      [(n1, Geometry.mesh m1), (n2, Geometry.mesh m2)]).textures.length = 2) ∧
    ((createGltfStructure f32 (some false)
      [(n1, Geometry.mesh m1), (n2, Geometry.mesh m2)]).materials.map
        fun me => me.baseColorTexture) = [some 0, some 1] ∧
    ((createGltfStructure f32 (some false)
      [(n1, Geometry.mesh m1), (n2, Geometry.mesh m2)]).textures.map
        fun t => t.source) = [0, 1] ∧
    ((createGltfStructure f32 (some false)
      [(n1, Geometry.mesh m1), (n2, Geometry.mesh m2)]).meshes.map
        fun e => e.prim.material) = [some 0, some 1] := by
  simp [createGltfStructure, appendGeometry, appendMesh, appendMaterial,
    appendTextureSlot, appendImage, emptyTree, updateLast_concat,
    updateLast_singleton, updateLast_cons_cons,
    h1k, h1m, h1mat, h1u, h1c, h2k, h2m, h2mat, h2u, h2c,
    hb, he, hn, ho, hmr, hf]

/-- Witness for C8 (amended) at the concrete shared-material scene. -/
theorem texture_dedup_C8_amended_witness :
    ((createGltfStructure f32c (some false)
      [("a", Geometry.mesh c8mesh), ("b", Geometry.mesh c8mesh)]).images.length
        = 2) ∧
    ((createGltfStructure f32c (some false)
      [("a", Geometry.mesh c8mesh), ("b", Geometry.mesh c8mesh)]).textures.length
        = 2) ∧
    ((createGltfStructure f32c (some false)
      [("a", Geometry.mesh c8mesh), ("b", Geometry.mesh c8mesh)]).materials.map
        fun me => me.baseColorTexture) = [some 0, some 1] ∧
    ((createGltfStructure f32c (some false)
      [("a", Geometry.mesh c8mesh), ("b", Geometry.mesh c8mesh)]).textures.map
        fun t => t.source) = [0, 1] ∧
    ((createGltfStructure f32c (some false)
      [("a", Geometry.mesh c8mesh), ("b", Geometry.mesh c8mesh)]).meshes.map
        fun e => e.prim.material) = [some 0, some 1] :=
  texture_dedup_C8_amended f32c "a" "b" c8mesh c8mesh c8mat c8img "PNG"
    rfl rfl rfl rfl rfl rfl rfl rfl rfl rfl rfl rfl rfl rfl rfl rfl

/-- Witness for C10: a well-formed header and JSON chunk followed by 3
trailing junk bytes, with a declared total length larger than the file. -/
theorem load_glb_trailing_C10_witness :
    loadGlbLoop (0 + 1) [7, 7, 7] 24 40 [] = .ok [] ∧
    load_glb [103, 108, 84, 70, 2, 0, 0, 0, 40, 0, 0, 0, 4, 0, 0, 0,
        74, 83, 79, 78, 1, 2, 3, 4, 7, 7, 7] =
      .ok ([1, 2, 3, 4], []) :=
  ⟨load_glb_trailing_C10.1 0 [7, 7, 7] 24 40 [] (by decide) (by decide),
   by
    have := load_glb_trailing_C10.2
      [103, 108, 84, 70, 2, 0, 0, 0, 40, 0, 0, 0, 4, 0, 0, 0,
        74, 83, 79, 78, 1, 2, 3, 4, 7, 7, 7]
      (by decide) (by decide) (by decide) (by decide) (by decide)
      (by decide) (by decide)
    simpa using this⟩

end Gltf
